import Mathlib

/-!
# Verification of `src/invoice_service.py`

Shallow embedding of the invoice pricing pipeline.  Python `float` money
values are modelled as exact rationals (`ℚ`): the spec describes the
arithmetic with exact decimal values and strict comparisons, and every
constant involved is an exact decimal.  Python `int` is `ℤ`, `Optional[str]`
is `Option String`, a raised `ValueError` is `Except.error` carrying the
message, and the mutable `warnings` list is threaded explicitly.
-/

namespace InvoiceService

/-- `LineItem` dataclass: sku, category, unit_price, qty, fragile. -/
structure LineItem where
  sku : String
  category : String
  unit_price : ℚ
  qty : ℤ
  fragile : Bool := false
  deriving DecidableEq, Repr

/-- `Invoice` dataclass. -/
structure Invoice where
  invoice_id : String
  customer_id : String
  country : String
  membership : String
  coupon : Option String
  items : List LineItem
  deriving DecidableEq, Repr

/-- `InvoiceService.VALID_CATEGORIES`. -/
def VALID_CATEGORIES : List String := ["book", "food", "electronics", "other"]

/-- The `_coupon_rate` dict, as a lookup returning `Option` like `dict.get`. -/
def coupon_rate (code : String) : Option ℚ :=
  if code = "WELCOME10" then some (10 / 100)
  else if code = "VIP20" then some (20 / 100)
  else if code = "STUDENT5" then some (5 / 100)
  else none

/-- The `_tax_rates` dict with the `0.05` default of `dict.get(country, 0.05)`. -/
def tax_rate (country : String) : ℚ :=
  if country = "TH" then 7 / 100
  else if country = "JP" then 10 / 100
  else if country = "US" then 8 / 100
  else 5 / 100

/-- `InvoiceService._validate`.  The argument is `Option Invoice` because the
Python code guards `inv is None`.  Python string/list truthiness (`not
inv.invoice_id`) is emptiness. -/
def validate (inv : Option Invoice) : List String :=
  match inv with
  | none => ["Invoice is missing"]
  | some inv =>
    let problems : List String := []
    let problems := if inv.invoice_id = "" then problems ++ ["Missing invoice_id"] else problems
    let problems := if inv.customer_id = "" then problems ++ ["Missing customer_id"] else problems
    let problems := if inv.items = [] then problems ++ ["Invoice must contain items"] else problems
    inv.items.foldl (fun acc it =>
      let acc := if it.sku = "" then acc ++ ["Item sku is missing"] else acc
      let acc := if it.qty ≤ 0 then acc ++ ["Invalid qty for " ++ it.sku] else acc
      let acc := if it.unit_price < 0 then acc ++ ["Invalid price for " ++ it.sku] else acc
      if it.category ∈ VALID_CATEGORIES then acc else acc ++ ["Unknown category for " ++ it.sku])
      problems

/-- `InvoiceService._calc_subtotal_and_fragile`: one pass accumulating the
subtotal `unit_price * qty` and, for fragile items, the fee `5.0 * qty`. -/
def calc_subtotal_and_fragile (items : List LineItem) : ℚ × ℚ :=
  items.foldl (fun acc it =>
    (acc.1 + it.unit_price * (it.qty : ℚ),
     if it.fragile then acc.2 + 5 * (it.qty : ℚ) else acc.2))
    (0, 0)

/-- `InvoiceService._calc_shipping`. -/
def calc_shipping (subtotal : ℚ) (country : String) : ℚ :=
  if country = "US" then
    if subtotal < 100 then 15
    else if subtotal < 300 then 8
    else 0
  else if country = "TH" then
    if subtotal < 500 then 60 else 0
  else if country = "JP" then
    if subtotal < 4000 then 600 else 0
  else
    if subtotal < 200 then 25 else 0

/-- `InvoiceService._membership_discount`. -/
def membership_discount (subtotal : ℚ) (membership : String) : ℚ :=
  if membership = "gold" then subtotal * (3 / 100)
  else if membership = "platinum" then subtotal * (5 / 100)
  else if subtotal > 3000 then 20 else 0

/-- Python's `str.strip()` with no argument: drop leading and trailing
whitespace.  (Lean's `String.trim` computes the same result but is defined by
well-founded recursion on byte positions, which the kernel cannot reduce, so
we embed `strip` directly on the character list.) -/
def strip (s : String) : String :=
  String.mk (((s.data.dropWhile Char.isWhitespace).reverse.dropWhile Char.isWhitespace).reverse)

/-- `InvoiceService._coupon_discount`: returns the discount together with the
updated warnings list (the Python code mutates `warnings` in place). -/
def coupon_discount (subtotal : ℚ) (coupon : Option String) (warnings : List String) :
    ℚ × List String :=
  match coupon with
  | none => (0, warnings)
  | some c =>
    if c = "" ∨ strip c = "" then (0, warnings)
    else
      match coupon_rate (strip c) with
      | none => (0, warnings ++ ["Unknown coupon"])
      | some rate => (subtotal * rate, warnings)

/-- Python's two-argument `max`: returns the second argument exactly when it is
strictly greater.  Executable, unlike Mathlib's order-instance `max` on `ℚ`. -/
def pymax (a b : ℚ) : ℚ :=
  if a < b then b else a

/-- `max(subtotal - discount, 0.0)`, the taxable base of `compute_total`. -/
def taxable_base (subtotal discount : ℚ) : ℚ :=
  pymax (subtotal - discount) 0

/-- `InvoiceService._tax_amount`. -/
def tax_amount (taxable : ℚ) (country : String) : ℚ :=
  taxable * tax_rate country

/-- `InvoiceService.compute_total`.  A non-empty problem list raises
`ValueError("; ".join(problems))`, modelled as `Except.error`.  The `none`
fallback branch is unreachable (`validate none` is non-empty). -/
def compute_total (inv : Option Invoice) : Except String (ℚ × List String) :=
  let problems := validate inv
  if problems = [] then
    match inv with
    | none => Except.error "Invoice is missing"
    | some inv =>
      let sf := calc_subtotal_and_fragile inv.items
      let subtotal := sf.1
      let fragile_fee := sf.2
      let shipping := calc_shipping subtotal inv.country
      let cd := coupon_discount subtotal inv.coupon []
      let discount := membership_discount subtotal inv.membership + cd.1
      let warnings := cd.2
      let taxable := taxable_base subtotal discount
      let tax := tax_amount taxable inv.country
      let total := pymax (subtotal + shipping + fragile_fee + tax - discount) 0
      let warnings :=
        if subtotal > 10000 ∧ inv.membership ≠ "gold" ∧ inv.membership ≠ "platinum" then
          warnings ++ ["Consider membership upgrade"]
        else warnings
      Except.ok (total, warnings)
  else
    Except.error (String.intercalate "; " problems)

/-! ## Named pipeline stages

The intermediate `let`-bound values of `compute_total`, as standalone
definitions, so that theorems can speak about the subtotal, discount, taxable
base, warnings and total of a given invoice.  `compute_total_ok` below proves
that `compute_total` literally computes these. -/

/-- The subtotal of an invoice (first component of `_calc_subtotal_and_fragile`). -/
def subtotal_of (inv : Invoice) : ℚ :=
  (calc_subtotal_and_fragile inv.items).1

/-- The fragile fee of an invoice (second component of `_calc_subtotal_and_fragile`). -/
def fragile_fee_of (inv : Invoice) : ℚ :=
  (calc_subtotal_and_fragile inv.items).2

/-- The combined membership + coupon discount of `compute_total`. -/
def discount_of (inv : Invoice) : ℚ :=
  membership_discount (subtotal_of inv) inv.membership +
    (coupon_discount (subtotal_of inv) inv.coupon []).1

/-- The warnings list `compute_total` returns on success: whatever
`_coupon_discount` appended, then possibly the upgrade suggestion. -/
def warnings_of (inv : Invoice) : List String :=
  (coupon_discount (subtotal_of inv) inv.coupon []).2 ++
    (if subtotal_of inv > 10000 ∧ inv.membership ≠ "gold" ∧ inv.membership ≠ "platinum" then
      ["Consider membership upgrade"]
    else [])

/-- The total `compute_total` returns on success. -/
def total_of (inv : Invoice) : ℚ :=
  pymax
    (subtotal_of inv + calc_shipping (subtotal_of inv) inv.country + fragile_fee_of inv +
        tax_amount (taxable_base (subtotal_of inv) (discount_of inv)) inv.country -
      discount_of inv)
    0

/-- On a valid invoice, `compute_total` succeeds with the named stage values. -/
theorem compute_total_ok (inv : Invoice) (h : validate (some inv) = []) :
    compute_total (some inv) = Except.ok (total_of inv, warnings_of inv) := by
  simp only [compute_total, h, if_pos]
  simp only [total_of, warnings_of, discount_of, subtotal_of, fragile_fee_of]
  by_cases hc :
      (calc_subtotal_and_fragile inv.items).1 > 10000 ∧
        inv.membership ≠ "gold" ∧ inv.membership ≠ "platinum"
  · rw [if_pos hc, if_pos hc]
  · rw [if_neg hc, if_neg hc, List.append_nil]

/-- On an invalid input, `compute_total` fails with the joined problem list. -/
theorem compute_total_err (inv : Option Invoice) (h : validate inv ≠ []) :
    compute_total inv = Except.error (String.intercalate "; " (validate inv)) := by
  simp only [compute_total]
  rw [if_neg h]

/-- `pymax a 0` is nonnegative. -/
theorem pymax_nonneg (a : ℚ) : 0 ≤ pymax a 0 := by
  unfold pymax
  split
  · exact le_refl 0
  · linarith [not_lt.mp (by assumption : ¬ a < 0)]

/-- `pymax` agrees with the order-theoretic `max`. -/
theorem pymax_eq_max (a b : ℚ) : pymax a b = max a b := by
  unfold pymax
  rcases lt_or_le a b with h | h
  · rw [if_pos h, max_eq_right h.le]
  · rw [if_neg (not_lt.mpr h), max_eq_left h]

/-! ## Branch lemmas for the per-country / per-tier dispatch -/

/-- Shipping for `"US"`. -/
theorem calc_shipping_US (s : ℚ) :
    calc_shipping s "US" = if s < 100 then 15 else if s < 300 then 8 else 0 := by
  simp [calc_shipping]

/-- Shipping for `"TH"`. -/
theorem calc_shipping_TH (s : ℚ) :
    calc_shipping s "TH" = if s < 500 then 60 else 0 := by
  simp [calc_shipping]

/-- Shipping for `"JP"`. -/
theorem calc_shipping_JP (s : ℚ) :
    calc_shipping s "JP" = if s < 4000 then 600 else 0 := by
  simp [calc_shipping]

/-- Shipping for every other country. -/
theorem calc_shipping_other (s : ℚ) (c : String)
    (h1 : c ≠ "US") (h2 : c ≠ "TH") (h3 : c ≠ "JP") :
    calc_shipping s c = if s < 200 then 25 else 0 := by
  simp [calc_shipping, h1, h2, h3]

/-- Membership discount for `"gold"`. -/
theorem membership_discount_gold (s : ℚ) : membership_discount s "gold" = s * (3 / 100) := by
  simp [membership_discount]

/-- Membership discount for `"platinum"`. -/
theorem membership_discount_platinum (s : ℚ) :
    membership_discount s "platinum" = s * (5 / 100) := by
  simp [membership_discount]

/-- Membership discount for every other tier. -/
theorem membership_discount_other (s : ℚ) (m : String)
    (h1 : m ≠ "gold") (h2 : m ≠ "platinum") :
    membership_discount s m = if s > 3000 then 20 else 0 := by
  simp [membership_discount, h1, h2]

/-- Stripping the empty string gives the empty string. -/
theorem strip_empty : strip "" = "" := rfl

/-- Coupon discount when no coupon is supplied. -/
theorem coupon_discount_none (s : ℚ) (w : List String) :
    coupon_discount s none w = (0, w) := rfl

/-- Coupon discount when the code is blank after stripping. -/
theorem coupon_discount_blank (s : ℚ) (c : String) (w : List String) (h : strip c = "") :
    coupon_discount s (some c) w = (0, w) := by
  simp only [coupon_discount]
  rw [if_pos (Or.inr h)]

/-- A code that is non-blank after stripping fails the blank test of
`_coupon_discount`. -/
theorem coupon_not_blank {c : String} (hne : strip c ≠ "") : ¬(c = "" ∨ strip c = "") := by
  intro hor
  rcases hor with h | h
  · exact hne (h ▸ strip_empty)
  · exact hne h

/-- Coupon discount when the stripped code is in the rate table. -/
theorem coupon_discount_found (s : ℚ) (c : String) (w : List String) (r : ℚ)
    (hne : strip c ≠ "") (h : coupon_rate (strip c) = some r) :
    coupon_discount s (some c) w = (s * r, w) := by
  simp only [coupon_discount]
  rw [if_neg (coupon_not_blank hne), h]

/-- Coupon discount when the stripped code is unknown. -/
theorem coupon_discount_unknown (s : ℚ) (c : String) (w : List String)
    (hne : strip c ≠ "") (h : coupon_rate (strip c) = none) :
    coupon_discount s (some c) w = (0, w ++ ["Unknown coupon"]) := by
  simp only [coupon_discount]
  rw [if_neg (coupon_not_blank hne), h]

/-! ## Concrete invoices and their evaluations -/

/-- The invoice of the spec's coupon test case: one line item with subtotal
1000, coupon `"VIP20"`, membership `"standard"`, country `"US"`, nothing
fragile. -/
def vipInvoice : Invoice :=
  { invoice_id := "INV-1", customer_id := "CUST-1", country := "US",
    membership := "standard", coupon := some "VIP20",
    items := [{ sku := "SKU-1", category := "book", unit_price := 1000, qty := 1,
                fragile := false }] }

/-- An invoice with an unknown coupon and a subtotal above the upgrade
threshold. -/
def upgInvoice : Invoice :=
  { invoice_id := "INV-2", customer_id := "CUST-2", country := "US",
    membership := "standard", coupon := some "BOGUS50",
    items := [{ sku := "SKU-2", category := "electronics", unit_price := 12000, qty := 1,
                fragile := false }] }

/-- An invoice missing `invoice_id`, `customer_id` and items at once. -/
def emptyInvoice : Invoice :=
  { invoice_id := "", customer_id := "", country := "US",
    membership := "standard", coupon := none, items := [] }

theorem vip_validate : validate (some vipInvoice) = [] := by decide

theorem vip_subfrag : calc_subtotal_and_fragile vipInvoice.items = (1000, 0) := by
  norm_num [calc_subtotal_and_fragile, vipInvoice]

theorem vip_subtotal : subtotal_of vipInvoice = 1000 := by
  rw [subtotal_of, vip_subfrag]

theorem vip_fragile : fragile_fee_of vipInvoice = 0 := by
  rw [fragile_fee_of, vip_subfrag]

theorem vip_coupon : coupon_discount 1000 (some "VIP20") [] = (200, []) := by
  rw [coupon_discount_found 1000 "VIP20" [] (20 / 100) (by decide) rfl]
  norm_num

theorem vip_membership : membership_discount 1000 "standard" = 0 := by
  rw [membership_discount_other 1000 "standard" (by decide) (by decide), if_neg (by norm_num)]

theorem vip_discount : discount_of vipInvoice = 200 := by
  rw [discount_of, vip_subtotal]
  simp only [vipInvoice]
  rw [vip_membership, vip_coupon]
  norm_num

theorem vip_taxable : taxable_base 1000 200 = 800 := by
  rw [taxable_base, pymax, if_neg (by norm_num)]
  norm_num

theorem vip_tax : tax_amount (taxable_base 1000 200) "US" = 64 := by
  rw [vip_taxable, tax_amount]
  rw [show tax_rate "US" = 8 / 100 from rfl]
  norm_num

theorem vip_shipping : calc_shipping 1000 "US" = 0 := by
  rw [calc_shipping_US, if_neg (by norm_num), if_neg (by norm_num)]

theorem vip_warnings : warnings_of vipInvoice = [] := by
  rw [warnings_of, vip_subtotal]
  simp only [vipInvoice]
  rw [vip_coupon, if_neg (fun hc => absurd hc.1 (by norm_num))]
  rfl

theorem vip_total : total_of vipInvoice = 864 := by
  rw [total_of, vip_subtotal, vip_fragile, vip_discount]
  simp only [vipInvoice]
  rw [vip_shipping, vip_tax, pymax, if_neg (by norm_num)]
  norm_num

theorem vip_eval : compute_total (some vipInvoice) = Except.ok (864, []) := by
  rw [compute_total_ok vipInvoice vip_validate, vip_total, vip_warnings]

theorem upg_validate : validate (some upgInvoice) = [] := by decide

theorem upg_subfrag : calc_subtotal_and_fragile upgInvoice.items = (12000, 0) := by
  norm_num [calc_subtotal_and_fragile, upgInvoice]

theorem upg_subtotal : subtotal_of upgInvoice = 12000 := by
  rw [subtotal_of, upg_subfrag]

theorem upg_fragile : fragile_fee_of upgInvoice = 0 := by
  rw [fragile_fee_of, upg_subfrag]

theorem upg_coupon : coupon_discount 12000 (some "BOGUS50") [] = (0, ["Unknown coupon"]) := by
  rw [coupon_discount_unknown 12000 "BOGUS50" [] (by decide) rfl]
  rfl

theorem upg_discount : discount_of upgInvoice = 20 := by
  rw [discount_of, upg_subtotal]
  simp only [upgInvoice]
  rw [membership_discount_other 12000 "standard" (by decide) (by decide), if_pos (by norm_num),
    upg_coupon]
  norm_num

theorem upg_warnings :
    warnings_of upgInvoice = ["Unknown coupon", "Consider membership upgrade"] := by
  rw [warnings_of, upg_subtotal]
  simp only [upgInvoice]
  rw [upg_coupon, if_pos ⟨by norm_num, by decide, by decide⟩]
  rfl

theorem upg_total : total_of upgInvoice = 64692 / 5 := by
  rw [total_of, upg_subtotal, upg_fragile, upg_discount]
  simp only [upgInvoice]
  rw [calc_shipping_US, if_neg (by norm_num), if_neg (by norm_num), taxable_base, tax_amount]
  rw [show tax_rate "US" = 8 / 100 from rfl]
  rw [show pymax (12000 - 20 : ℚ) 0 = 11980 by rw [pymax, if_neg (by norm_num)]; norm_num]
  rw [pymax, if_neg (by norm_num)]
  norm_num

theorem upg_eval :
    compute_total (some upgInvoice) =
      Except.ok (64692 / 5, ["Unknown coupon", "Consider membership upgrade"]) := by
  rw [compute_total_ok upgInvoice upg_validate, upg_total, upg_warnings]

theorem empty_validate :
    validate (some emptyInvoice) =
      ["Missing invoice_id", "Missing customer_id", "Invoice must contain items"] := by
  decide

/-- The spec's condition for the "Unknown coupon" warning: a coupon code that
is non-empty after trimming and whose trimmed code is not in the rate table. -/
def specCouponUnknown (coupon : Option String) : Bool :=
  match coupon with
  | none => false
  | some c => (strip c != "") && (coupon_rate (strip c)).isNone

/-- The warnings produced by `_coupon_discount` are exactly the input list
plus one "Unknown coupon" entry when `specCouponUnknown` holds. -/
theorem coupon_discount_warnings (s : ℚ) (c : Option String) (w : List String) :
    (coupon_discount s c w).2 =
      w ++ (if specCouponUnknown c then ["Unknown coupon"] else []) := by
  match c with
  | none => simp [coupon_discount, specCouponUnknown]
  | some c =>
    by_cases hb : c = "" ∨ strip c = ""
    · have hs : strip c = "" := by
        rcases hb with h | h
        · exact h ▸ strip_empty
        · exact h
      rw [coupon_discount_blank s c w hs]
      simp [specCouponUnknown, hs]
    · have hne : strip c ≠ "" := fun h => hb (Or.inr h)
      cases hr : coupon_rate (strip c) with
      | none =>
        rw [coupon_discount_unknown s c w hne hr]
        simp [specCouponUnknown, hne, hr]
      | some r =>
        rw [coupon_discount_found s c w r hne hr]
        simp [specCouponUnknown, hne, hr]

/-- An invoice with the given optional fields but missing `invoice_id`,
`customer_id` and items. -/
def missingAll (country membership : String) (coupon : Option String) : Invoice :=
  { invoice_id := "", customer_id := "", country := country,
    membership := membership, coupon := coupon, items := [] }

/-! ## The claims -/

/-- C1: whenever validation finds problems, `compute_total` fails with exactly
the problems joined by "; " in detection order and yields no total; whenever
validation finds none, it succeeds with a `(total, warnings)` pair. -/
theorem compute_total_validation_gate (inv : Option Invoice) :
    (validate inv ≠ [] →
      compute_total inv = Except.error (String.intercalate "; " (validate inv))) ∧
    (validate inv = [] → ∃ t w, compute_total inv = Except.ok (t, w)) := by
  refine ⟨compute_total_err inv, fun h => ?_⟩
  match inv with
  | none => exact absurd h (by decide)
  | some inv => exact ⟨total_of inv, warnings_of inv, compute_total_ok inv h⟩

/-- Witness for C1: a concrete invalid invoice fails with the joined message,
and a concrete valid invoice returns a pair. -/
theorem compute_total_validation_gate_witness :
    (validate (some emptyInvoice) ≠ [] ∧
      compute_total (some emptyInvoice) =
        Except.error (String.intercalate "; " (validate (some emptyInvoice)))) ∧
    (validate (some vipInvoice) = [] ∧
      ∃ t w, compute_total (some vipInvoice) = Except.ok (t, w)) :=
  ⟨⟨by decide, (compute_total_validation_gate (some emptyInvoice)).1 (by decide)⟩,
   ⟨vip_validate, (compute_total_validation_gate (some vipInvoice)).2 vip_validate⟩⟩

/-- C2: the spec's coupon test case — subtotal 1000, coupon "VIP20",
membership "standard", country "US", no fragile items — returns total 864
with no warnings, with membership discount 0, coupon discount 200, taxable
base 800, tax 64, shipping 0 and fragile fee 0. -/
theorem coupon_case_evaluation :
    compute_total (some vipInvoice) = Except.ok (864, []) ∧
    subtotal_of vipInvoice = 1000 ∧
    membership_discount (subtotal_of vipInvoice) vipInvoice.membership = 0 ∧
    (coupon_discount (subtotal_of vipInvoice) vipInvoice.coupon []).1 = 200 ∧
    taxable_base (subtotal_of vipInvoice) (discount_of vipInvoice) = 800 ∧
    tax_amount (taxable_base (subtotal_of vipInvoice) (discount_of vipInvoice))
      vipInvoice.country = 64 ∧
    calc_shipping (subtotal_of vipInvoice) vipInvoice.country = 0 ∧
    fragile_fee_of vipInvoice = 0 := by
  refine ⟨vip_eval, vip_subtotal, ?_, ?_, ?_, ?_, ?_, vip_fragile⟩
  · rw [vip_subtotal]
    simp only [vipInvoice]
    exact vip_membership
  · rw [vip_subtotal]
    simp only [vipInvoice]
    rw [vip_coupon]
  · rw [vip_subtotal, vip_discount]
    exact vip_taxable
  · rw [vip_subtotal, vip_discount]
    simp only [vipInvoice]
    exact vip_tax
  · rw [vip_subtotal]
    simp only [vipInvoice]
    exact vip_shipping

/-- C3: on every invoice that passes validation the returned total is
nonnegative, whatever the discounts, and so is the taxable base the tax is
computed from. -/
theorem total_and_taxable_nonneg (inv : Invoice) (t : ℚ) (w : List String)
    (h : compute_total (some inv) = Except.ok (t, w)) :
    0 ≤ t ∧ 0 ≤ taxable_base (subtotal_of inv) (discount_of inv) := by
  refine ⟨?_, by rw [taxable_base]; exact pymax_nonneg _⟩
  by_cases hv : validate (some inv) = []
  · rw [compute_total_ok inv hv] at h
    have ht : total_of inv = t := congrArg Prod.fst (Except.ok.inj h)
    rw [← ht, total_of]
    exact pymax_nonneg _
  · rw [compute_total_err _ hv] at h
    exact absurd h (by simp)

/-- Witness for C3 at the coupon test-case invoice. -/
theorem total_and_taxable_nonneg_witness :
    compute_total (some vipInvoice) = Except.ok (864, []) ∧
    (0 ≤ (864 : ℚ) ∧ 0 ≤ taxable_base (subtotal_of vipInvoice) (discount_of vipInvoice)) :=
  ⟨vip_eval, total_and_taxable_nonneg vipInvoice 864 [] vip_eval⟩

/-- C4: shipping is a pure function of subtotal and country with strict
less-than tier thresholds, and on the US boundaries 100 ↦ 8 and 300 ↦ 0. -/
theorem calc_shipping_spec (s : ℚ) :
    calc_shipping s "US" = (if s < 100 then 15 else if s < 300 then 8 else 0) ∧
    calc_shipping s "TH" = (if s < 500 then 60 else 0) ∧
    calc_shipping s "JP" = (if s < 4000 then 600 else 0) ∧
    (∀ c : String, c ≠ "US" → c ≠ "TH" → c ≠ "JP" →
      calc_shipping s c = if s < 200 then 25 else 0) ∧
    calc_shipping 100 "US" = 8 ∧ calc_shipping 300 "US" = 0 :=
  ⟨calc_shipping_US s, calc_shipping_TH s, calc_shipping_JP s,
   fun c h1 h2 h3 => calc_shipping_other s c h1 h2 h3,
   by rw [calc_shipping_US]; norm_num,
   by rw [calc_shipping_US]; norm_num⟩

/-- Witness for C4: the other-country branch at a concrete country and the
US boundary value. -/
theorem calc_shipping_spec_witness :
    (("DE" : String) ≠ "US" ∧ ("DE" : String) ≠ "TH" ∧ ("DE" : String) ≠ "JP") ∧
    calc_shipping 50 "DE" = (if (50 : ℚ) < 200 then 25 else 0) ∧
    calc_shipping 100 "US" = 8 :=
  ⟨⟨by decide, by decide, by decide⟩,
   (calc_shipping_spec 50).2.2.2.1 "DE" (by decide) (by decide) (by decide),
   (calc_shipping_spec 100).2.2.2.2.1⟩

/-- C5: membership discount is 3% for gold, 5% for platinum, and for every
other membership a flat 20 when the subtotal exceeds 3000 and 0 otherwise. -/
theorem membership_discount_spec (s : ℚ) :
    membership_discount s "gold" = s * (3 / 100) ∧
    membership_discount s "platinum" = s * (5 / 100) ∧
    ∀ m : String, m ≠ "gold" → m ≠ "platinum" →
      membership_discount s m = if s > 3000 then 20 else 0 :=
  ⟨membership_discount_gold s, membership_discount_platinum s,
   fun m h1 h2 => membership_discount_other s m h1 h2⟩

/-- Witness for C5 at membership "standard" and subtotal 5000. -/
theorem membership_discount_spec_witness :
    (("standard" : String) ≠ "gold" ∧ ("standard" : String) ≠ "platinum") ∧
    membership_discount 5000 "standard" = (if (5000 : ℚ) > 3000 then 20 else 0) :=
  ⟨⟨by decide, by decide⟩,
   (membership_discount_spec 5000).2.2 "standard" (by decide) (by decide)⟩

/-- C6: absent or blank-after-trim coupons give discount 0 with no warning;
codes in the table give `subtotal * rate` with no warning; any other code
gives 0 and appends exactly one "Unknown coupon" warning. -/
theorem coupon_discount_spec (s : ℚ) (w : List String) :
    coupon_rate "WELCOME10" = some (10 / 100) ∧
    coupon_rate "VIP20" = some (20 / 100) ∧
    coupon_rate "STUDENT5" = some (5 / 100) ∧
    coupon_discount s none w = (0, w) ∧
    (∀ c, strip c = "" → coupon_discount s (some c) w = (0, w)) ∧
    (∀ c r, strip c ≠ "" → coupon_rate (strip c) = some r →
      coupon_discount s (some c) w = (s * r, w)) ∧
    (∀ c, strip c ≠ "" → coupon_rate (strip c) = none →
      coupon_discount s (some c) w = (0, w ++ ["Unknown coupon"])) :=
  ⟨rfl, rfl, rfl, rfl,
   fun c h => coupon_discount_blank s c w h,
   fun c r hne h => coupon_discount_found s c w r hne h,
   fun c hne h => coupon_discount_unknown s c w hne h⟩

/-- Witness for C6: a blank code, a known code with surrounding whitespace,
and an unknown code. -/
theorem coupon_discount_spec_witness :
    (strip "   " = "" ∧ coupon_discount 10 (some "   ") [] = (0, [])) ∧
    (strip " VIP20 " ≠ "" ∧ coupon_rate (strip " VIP20 ") = some (20 / 100) ∧
      coupon_discount 10 (some " VIP20 ") [] = (10 * (20 / 100), [])) ∧
    (strip "BOGUS50" ≠ "" ∧ coupon_rate (strip "BOGUS50") = none ∧
      coupon_discount 10 (some "BOGUS50") [] = (0, [] ++ ["Unknown coupon"])) :=
  ⟨⟨rfl, (coupon_discount_spec 10 []).2.2.2.2.1 "   " rfl⟩,
   ⟨by decide, rfl,
    (coupon_discount_spec 10 []).2.2.2.2.2.1 " VIP20 " (20 / 100) (by decide) rfl⟩,
   ⟨by decide, rfl,
    (coupon_discount_spec 10 []).2.2.2.2.2.2 "BOGUS50" (by decide) rfl⟩⟩

/-- C7: on success, the warnings are exactly the unknown-coupon warning (iff a
non-blank trimmed code is absent from the rate table) followed by the upgrade
suggestion (iff subtotal > 10000 and membership is neither gold nor platinum),
and the total is `total_of inv`, which does not depend on the warnings. -/
theorem warnings_exact (inv : Invoice) (t : ℚ) (w : List String)
    (h : compute_total (some inv) = Except.ok (t, w)) :
    w = (if specCouponUnknown inv.coupon then ["Unknown coupon"] else []) ++
        (if subtotal_of inv > 10000 ∧ inv.membership ≠ "gold" ∧ inv.membership ≠ "platinum"
          then ["Consider membership upgrade"] else []) ∧
    t = total_of inv := by
  by_cases hv : validate (some inv) = []
  · rw [compute_total_ok inv hv] at h
    have hp := Except.ok.inj h
    have hw : warnings_of inv = w := congrArg Prod.snd hp
    have ht : total_of inv = t := congrArg Prod.fst hp
    refine ⟨?_, ht.symm⟩
    rw [← hw, warnings_of, coupon_discount_warnings]
    simp
  · rw [compute_total_err _ hv] at h
    exact absurd h (by simp)

/-- Witness for C7 at an invoice that triggers both warnings. -/
theorem warnings_exact_witness :
    compute_total (some upgInvoice) =
      Except.ok (64692 / 5, ["Unknown coupon", "Consider membership upgrade"]) ∧
    ((["Unknown coupon", "Consider membership upgrade"] : List String) =
        (if specCouponUnknown upgInvoice.coupon then ["Unknown coupon"] else []) ++
          (if subtotal_of upgInvoice > 10000 ∧ upgInvoice.membership ≠ "gold" ∧
              upgInvoice.membership ≠ "platinum"
            then ["Consider membership upgrade"] else []) ∧
      (64692 / 5 : ℚ) = total_of upgInvoice) :=
  ⟨upg_eval, warnings_exact upgInvoice (64692 / 5) _ upg_eval⟩

/-- C8: an invoice missing `invoice_id`, `customer_id` and items at once fails
with a message containing all three problem substrings in that order. -/
theorem validation_not_short_circuited (country membership : String) (coupon : Option String) :
    ∃ msg,
      compute_total (some (missingAll country membership coupon)) = Except.error msg ∧
      ∃ s1 s2 s3 s4 : String,
        msg = s1 ++ "Missing invoice_id" ++ s2 ++ "Missing customer_id" ++ s3 ++
          "Invoice must contain items" ++ s4 := by
  have hv : validate (some (missingAll country membership coupon)) =
      ["Missing invoice_id", "Missing customer_id", "Invoice must contain items"] := by
    simp [validate, missingAll]
  refine ⟨_, compute_total_err _ (by rw [hv]; decide), "", "; ", "; ", "", ?_⟩
  rw [hv]
  decide

/-- C10: `compute_total` is deterministic — two runs on the same invoice give
the same result. -/
theorem compute_total_deterministic (inv : Option Invoice)
    (r1 r2 : Except String (ℚ × List String))
    (h1 : compute_total inv = r1) (h2 : compute_total inv = r2) : r1 = r2 := by
  rw [← h1, ← h2]

/-- Witness for C10 at the coupon test-case invoice. -/
theorem compute_total_deterministic_witness :
    (Except.ok ((864 : ℚ), ([] : List String)) : Except String (ℚ × List String)) =
      Except.ok ((864 : ℚ), ([] : List String)) :=
  compute_total_deterministic (some vipInvoice) _ _ vip_eval vip_eval

end InvoiceService
